import Mathlib

/-!
# Verification of the seisflows job-array execution and submission layer

Shallow embedding of `src/seisflows/system/cluster.py` (class `Cluster`) and
`src/seisflows/system/bscc.py` (class `Bscc`), together with theorems checking
the natural-language specification of the repository against this embedding.

Modelling conventions:
* Python strings become Lean `String`; `" ".join(l)` becomes `pyJoin " " l`.
* `subprocess.run(cmd, shell=True, check=check)` is modelled by `subprocessRun`:
  the OS assigns the command an exit status (supplied as an oracle
  `String → Int`), and `subprocess.CalledProcessError` is raised if and only if
  `check` is true and the status is non-zero (the Python library contract).
* `sys.exit(-1)` and uncaught exceptions become explicit outcome constructors.
* Wall-clock time is discrete: each task has a duration in ticks, and the
  bounded `ProcessPoolExecutor` worker pool is a fuel-indexed simulation
  (`poolSim`) that records, for every tick, the set of task ids running.
-/

/-- `" ".join(elements)` — Python's `str.join`. -/
def pyJoin (sep : String) : List String → String
  | [] => ""
  | [x] => x
  | x :: xs => x ++ sep ++ pyJoin sep xs

/-- Python truthiness-based `a or b` for optional strings: `None` and `""` are
falsy, so they yield `b`. -/
def pyOrStr (a b : Option String) : Option String :=
  match a with
  | some s => if s = "" then b else some s
  | none => b

/-- Python f-string rendering of a possibly-`None` value. -/
def optStr : Option String → String
  | some s => s
  | none => "None"

/-- `subprocess.CalledProcessError`, carrying the non-zero return code. -/
structure CalledProcessError where
  returncode : Int
deriving DecidableEq

/-- `subprocess.run(cmd, shell=True, check=check)` where the command's exit
status is `returncode`: per the Python library contract, `CalledProcessError`
is raised iff `check` is true and the status is non-zero; otherwise the
completed process (its return code) is handed back. -/
def subprocessRun (check : Bool) (returncode : Int) : Except CalledProcessError Int :=
  if check = true ∧ returncode ≠ 0 then
    Except.error (CalledProcessError.mk returncode)
  else
    Except.ok returncode

/-- `run_call.format(task_id=task_id)` — substitutes the task id into the run
command template built by `Cluster.run`. -/
def pyFormat (template : String) (task_id : Nat) : String :=
  template.replace "{task_id}" (toString task_id)

/-! ## Submission Front-End: `Cluster.submit` (cluster.py lines 120-163) -/

/-- Outcome of `Cluster.submit`: either the method returns normally, or the
`except subprocess.CalledProcessError` branch runs `sys.exit(-1)`. -/
inductive SubmitOutcome where
  | returnedNormally
  | exited (code : Int)
deriving DecidableEq

/-- `Cluster.submit` (cluster.py lines 144-163), after the log-file copying.
`header` is `""` when `login` is true, else `submit_call_header`;
`rcOfCommand` is the OS oracle giving the exit status of the shell command.
The source calls `subprocess.run(submit_call, shell=True)` — note: without
`check=True` — inside `try/except subprocess.CalledProcessError`, which on
catch logs and calls `sys.exit(-1)`. -/
def clusterSubmit (header submitWorkflow workdir parameter_file : String)
    (rcOfCommand : String → Int) : SubmitOutcome :=
  let submit_call := pyJoin " " [
    header,
    submitWorkflow,
    "--workdir " ++ workdir,
    "--parameter_file " ++ parameter_file]
  match subprocessRun false (rcOfCommand submit_call) with
  | Except.ok _ => SubmitOutcome.returnedNormally
  | Except.error _ => SubmitOutcome.exited (-1)

/-! ## Per-task execution: `Cluster._run_task` (cluster.py lines 256-280) -/

/-- The ways `Cluster._run_task` can fail to return a `(task_id, returncode)`
pair: the per-task log file cannot be opened (the `open` raises, uncaught), or
the `except subprocess.CalledProcessError` branch runs `sys.exit(-1)`. -/
inductive TaskError where
  | logOpenFailed
  | exitedProcess
deriving DecidableEq

/-- `Cluster._run_task` (cluster.py lines 256-280): opens the per-task log
file, runs `subprocess.run(run_call.format(task_id=task_id), shell=True,
stdout=f)` — again without `check=True` — and returns
`(task_id, result.returncode)`. `logOpenOk` says whether the log file opens;
`rcOf` is the OS oracle for shell commands. -/
def runTask (logOpenOk : Bool) (rcOf : String → Int) (run_call : String)
    (task_id : Nat) : Except TaskError (Nat × Int) :=
  if logOpenOk then
    match subprocessRun false (rcOf (pyFormat run_call task_id)) with
    | Except.ok rc => Except.ok (task_id, rc)
    | Except.error _ => Except.error TaskError.exitedProcess
  else
    Except.error TaskError.logOpenFailed

/-! ## Run-command construction (cluster.py lines 206-215) -/

/-- The run command template built in `Cluster.run` (cluster.py lines
206-215): `" ".join([run_call_header, run_functions, "--funcs <fid>",
"--kwargs <fid>", "--environment SEISFLOWS_TASKID={task_id},<environs>"])`. -/
def buildRunCall (run_call_header run_functions funcs_fid kwargs_fid
    environs : String) : String :=
  pyJoin " " [
    run_call_header,
    run_functions,
    "--funcs " ++ funcs_fid,
    "--kwargs " ++ kwargs_fid,
    "--environment SEISFLOWS_TASKID={task_id}," ++ environs]

/-- The run command as the spec's words describe it (§6): the run header, the
run entry point, `--funcs` followed by the functions handle, `--kwargs`
followed by the kwargs handle, and `--environment` followed by the
environment-binding string (the TaskId binding slot, then a comma, then the
configured environs), all separated by single spaces. -/
def specRunCommand (runHeader entryPoint funcsHandle kwargsHandle
    environs : String) : String :=
  runHeader ++ " " ++ entryPoint ++ " " ++
    ("--funcs " ++ funcsHandle) ++ " " ++
    ("--kwargs " ++ kwargsHandle) ++ " " ++
    ("--environment SEISFLOWS_TASKID={task_id}," ++ environs)

/-! ## Generic cluster headers (cluster.py lines 85-117) -/

/-- `Cluster.submit_call_header` (cluster.py lines 85-100): the generic
cluster variant returns the empty string. -/
def clusterSubmitCallHeader : String := ""

/-- `Cluster.run_call_header` (cluster.py lines 102-117): the generic cluster
variant returns the empty string. -/
def clusterRunCallHeader : String := ""

/-! ## Task id set -/

/-- Modelled from the spec: `Workstation.task_ids` is not under `src/` (only
its caller `Cluster.run` is). Spec §4.3 step 1: the TaskId set is `{0}` if
`single`, else `{0,...,N-1}` where N is the configured task count. -/
def taskIds (ntask : Nat) (single : Bool) : List Nat :=
  if single then [0] else List.range ntask

/-! ## Bounded worker pool (`ProcessPoolExecutor(max_workers=ntask_max)`)

`Cluster.run` (cluster.py lines 222-228) submits every task to a
`ProcessPoolExecutor` with `max_workers = ntask_max` and then leaves the
`with` block, whose exit calls `executor.shutdown(wait=True)` — i.e. blocks,
with no timeout, until every submitted task has finished.  Only after that
does it call `wait(futures, timeout=tasktime, return_when="FIRST_EXCEPTION")`,
at which point every future is already completed.

The pool is modelled as a discrete-time simulation: tasks are `(id, duration)`
pairs, submitted in TaskId order; at each tick the pool starts queued tasks
while fewer than `max_workers` are running, every running task consumes one
tick of its duration, and tasks whose duration is exhausted complete.  The
simulation records, for each tick, the list of task ids running during that
tick; `fuel` is an upper bound on the number of ticks simulated. -/

/-- One run of the bounded worker pool: returns the per-tick snapshots of the
ids of running tasks, from submission until the pool drains (or fuel ends). -/
def poolSim (max_workers : Nat) : Nat → List (Nat × Nat) → List (Nat × Nat) →
    List (List Nat)
  | 0, _, _ => []
  | fuel + 1, pending, running =>
    if pending.isEmpty && running.isEmpty then []
    else
      (running ++ pending.take (max_workers - running.length)).map Prod.fst ::
        poolSim max_workers fuel
          (pending.drop (max_workers - running.length))
          (((running ++ pending.take (max_workers - running.length)).map
              (fun p => (p.1, p.2 - 1))).filter (fun p => p.2 != 0))

/-! ## Failure Aggregator (cluster.py lines 234-254) -/

/-- The `failed_jobs` loop of `Cluster.run` (cluster.py lines 234-238): every
`(job_id, return_code)` pair with a non-zero return code contributes its
`job_id`. -/
def failedJobs : List (Nat × Int) → List Nat
  | [] => []
  | (job_id, return_code) :: rest =>
    if return_code ≠ 0 then job_id :: failedJobs rest else failedJobs rest

/-- Outcome of `Cluster.run`: fall through normally (success), or the
`if failed_jobs:` branch (cluster.py lines 240-254), which logs the failing
task ids together with the run call and then runs `sys.exit(-1)`. -/
inductive RunOutcome where
  | success
  | failureExit (task_ids : List Nat) (run_call : String)
deriving DecidableEq

/-- The failure aggregation at the end of `Cluster.run` (cluster.py lines
234-254): success when no collected result has a non-zero return code,
otherwise the failing task ids are reported together with the run call and
the process exits non-zero. -/
def aggregate (results : List (Nat × Int)) (run_call : String) : RunOutcome :=
  match failedJobs results with
  | [] => RunOutcome.success
  | f => RunOutcome.failureExit f run_call

/-! ## The dispatcher: `Cluster.run` (cluster.py lines 165-254) -/

/-- Observable result of one `Cluster.run` invocation. `elapsed` is the number
of ticks the dispatcher blocks between submitting the tasks and processing
their results; `snapshots` are the per-tick sets of concurrently running task
ids (empty for `single`, which executes in the dispatcher's own process);
`results` are the collected `(task_id, returncode)` pairs. -/
structure RunReport where
  executed : List Nat
  elapsed : Nat
  snapshots : List (List Nat)
  results : List (Nat × Int)
  outcome : RunOutcome
deriving DecidableEq

/-- `Cluster.run` (cluster.py lines 165-254).  The work unit is pickled before
this point (see `runEvents` for the event ordering); `durOf` gives each task's
duration in ticks and `rcOf` is the OS oracle for shell commands.

* `single = true` (line 219-220): calls `self._run_task(run_call, task_id=0)`
  directly — exactly once, with task id 0, ignoring `ntask` — and discards the
  returned pair: no return-code check is performed, so the method falls
  through and returns normally.
* `single = false` (lines 222-254): submits one `_run_task` per task id to the
  bounded pool; the `with` block exit joins all of them (`elapsed` ticks, no
  timeout), the subsequent `wait(futures, timeout=tasktime)` finds every
  future already completed, then every `future.result()` is collected and
  aggregated. -/
def clusterRun (ntask ntask_max tasktime fuel : Nat) (durOf : Nat → Nat)
    (rcOf : String → Int) (run_call_header run_functions funcs_fid kwargs_fid
    environs : String) (single : Bool) : RunReport :=
  let task_ids := taskIds ntask single
  let run_call := buildRunCall run_call_header run_functions funcs_fid
    kwargs_fid environs
  if single then
    let r := runTask true rcOf run_call 0
    { executed := [0], elapsed := durOf 0, snapshots := [],
      results := r.toOption.toList, outcome := RunOutcome.success }
  else
    let snapshots := poolSim ntask_max fuel
      (task_ids.map (fun i => (i, durOf i))) []
    let results := task_ids.filterMap
      (fun i => (runTask true rcOf run_call i).toOption)
    { executed := task_ids, elapsed := snapshots.length,
      snapshots := snapshots, results := results,
      outcome := aggregate results run_call }

/-! ## Event ordering of `Cluster.run` (cluster.py lines 196-228) -/

/-- The observable steps of one `Cluster.run` dispatch, in program order:
`pickle_function_list` (line 198) writes the functions pickle and then the
kwargs pickle; then tasks are launched (line 220 or lines 223-225); for an
array dispatch the dispatcher then waits (line 228) and aggregates (lines
234-254).  No step of `Cluster.run` writes the pickle handles again. -/
inductive RunEv where
  | writeFuncsHandle
  | writeKwargsHandle
  | launch (task_id : Nat)
  | waitArray
  | aggregateResults
deriving DecidableEq

/-- The event trace of `Cluster.run` (cluster.py lines 196-254):
serialization first (both handles, line 198), then the launches — task id 0
alone when `single`, else every task id in order — then the array wait and
result aggregation. -/
def runEvents (single : Bool) (task_ids : List Nat) : List RunEv :=
  [RunEv.writeFuncsHandle, RunEv.writeKwargsHandle] ++
    (if single then [RunEv.launch 0]
     else task_ids.map RunEv.launch ++ [RunEv.waitArray, RunEv.aggregateResults])

/-! ## Site-specific backend: `Bscc` (bscc.py) -/

/-- The `ConfigError` the spec's error taxonomy (§7) assigns to invalid
backend configuration values (bad partition, malformed GPU count). -/
inductive ConfigError where
  | badPartition (field : String)
  | badGpus (field : String)
deriving DecidableEq

/-- The `ngpus` argument of `Bscc.__init__`: absent (`None`), an integer, or
some other (malformed) value, modelled by the string it would print as. -/
inductive Ngpus where
  | absent
  | int (n : Int)
  | other (s : String)
deriving DecidableEq

/-- The configuration state of a `Bscc` instance: the fields inherited from
`Workstation`/`Cluster`/`Slurm` that `bscc.py` reads (`title`,
`path.output_log`, `path.log_files`, `walltime`, `tasktime`, `nproc`,
`slurm_args`) plus the fields `Bscc.__init__` assigns. -/
structure BsccConfig where
  title : String
  path_output_log : String
  path_log_files : String
  walltime : Nat
  tasktime : Nat
  nproc : Nat
  mpiexec : String
  partition : Option String
  submit_to : Option String
  slurm_args : Option String
  partitions : List (String × Nat)
deriving DecidableEq

/-- The `_partitions` dictionary assigned in `Bscc.__init__` (bscc.py lines
52-54): partition name to cores per node. -/
def bsccPartitions : List (String × Nat) :=
  [("gpu_4090", 6), ("v6_384", 96), ("amd_a8_384", 128), ("amd_a8_768", 128)]

/-- `Bscc.__init__` (bscc.py lines 41-54).  `base` carries the state produced
by `super().__init__(**kwargs)`.  The body assigns `mpiexec`, `partition`,
`submit_to = submit_to or self.partition`, appends `--gpus=<n>` to
`slurm_args` only when `ngpus` is a truthy `int` (`if ngpus and
isinstance(ngpus, int)` — anything else, including a malformed non-integer
value, is silently skipped), and installs the `_partitions` dictionary.  The
result type is `Except ConfigError _` so that the spec's claimed
configuration-time validation failure is expressible; the body has no error
path. -/
def bsccInit (base : BsccConfig) (mpiexec : String)
    (partition submit_to : Option String) (ngpus : Ngpus) :
    Except ConfigError BsccConfig :=
  let c1 := { base with
    mpiexec := mpiexec,
    partition := partition,
    submit_to := pyOrStr submit_to partition }
  let c2 := match ngpus with
    | Ngpus.int n =>
      if n ≠ 0 then
        let sa := (c1.slurm_args.getD "") ++ "--gpus=" ++ toString n
        { c1 with slurm_args := some sa }
      else c1
    | _ => c1
  Except.ok { c2 with partitions := bsccPartitions }

/-- `Bscc.submit_call_header` (bscc.py lines 56-72). -/
def bsccSubmitCallHeader (c : BsccConfig) : String :=
  pyJoin " " [
    "sbatch",
    "--job-name=" ++ c.title,
    "--output=" ++ c.path_output_log,
    "--error=" ++ c.path_output_log,
    "--ntasks=1",
    "--partition=" ++ optStr c.submit_to,
    "--time=" ++ toString c.walltime]

/-- `Bscc.run_call` (bscc.py lines 74-96), with the `array` and `tasktime`
arguments already defaulted (`array or self.task_ids(single=single)`,
`tasktime or self.tasktime`). -/
def bsccRunCall (c : BsccConfig) (executable array : String)
    (tasktime : Nat) : String :=
  pyJoin " " [
    "sbatch",
    c.slurm_args.getD "",
    "--job-name=" ++ c.title,
    "--ntasks=" ++ toString c.nproc,
    "--partition=" ++ optStr c.partition,
    "--time=" ++ toString tasktime,
    "--array=" ++ array,
    "--output=" ++ (c.path_log_files ++ "/%A_%a"),
    "--parsable",
    executable]

/-! ## Helper lemmas -/

/-- Membership in the failed-jobs list: a task id is reported iff some
collected result carries it with a non-zero return code. -/
theorem mem_failedJobs : ∀ (results : List (Nat × Int)) (id : Nat),
    id ∈ failedJobs results ↔ ∃ rc, (id, rc) ∈ results ∧ rc ≠ 0 := by
  intro results
  induction results with
  | nil => intro id; simp [failedJobs]
  | cons p rest ih =>
    intro id
    obtain ⟨j, rc⟩ := p
    by_cases h : rc = 0
    · subst h
      simp [failedJobs, ih]
      constructor
      · rintro ⟨c, hc, hc0⟩
        exact ⟨c, Or.inr hc, hc0⟩
      · rintro ⟨c, hc | hc, hc0⟩
        · exact absurd hc.2 hc0
        · exact ⟨c, hc, hc0⟩
    · simp only [failedJobs, if_pos h, List.mem_cons, ih]
      constructor
      · rintro (rfl | ⟨c, hc, hc0⟩)
        · exact ⟨rc, Or.inl rfl, h⟩
        · exact ⟨c, Or.inr hc, hc0⟩
      · rintro ⟨c, hc | hc, hc0⟩
        · cases hc
          exact Or.inl rfl
        · exact Or.inr ⟨c, hc, hc0⟩

/-- The failed-jobs list is empty iff every collected return code is zero. -/
theorem failedJobs_eq_nil : ∀ (results : List (Nat × Int)),
    failedJobs results = [] ↔ ∀ p ∈ results, p.2 = 0 := by
  intro results
  induction results with
  | nil => simp [failedJobs]
  | cons p rest ih =>
    obtain ⟨j, rc⟩ := p
    by_cases h : rc = 0
    · subst h
      simp [failedJobs, ih]
    · simp [failedJobs, h]

/-- Invariant of the bounded worker pool: if at most `k` tasks are running
when a tick starts, every recorded snapshot holds at most `k` task ids.  The
launching step starts at most `k - running.length` queued tasks, and
completion only shrinks the running list. -/
theorem poolSim_running_le (k : Nat) : ∀ (fuel : Nat)
    (pending running : List (Nat × Nat)), running.length ≤ k →
    ∀ s ∈ poolSim k fuel pending running, s.length ≤ k := by
  intro fuel
  induction fuel with
  | zero =>
    intro pending running _ s hs
    simp [poolSim] at hs
  | succ n ih =>
    intro pending running hlen s hs
    rw [poolSim] at hs
    split at hs
    · simp at hs
    · have hactive : (running ++ pending.take (k - running.length)).length ≤ k := by
        rw [List.length_append, List.length_take]
        calc running.length + min (k - running.length) pending.length
            ≤ running.length + (k - running.length) :=
              Nat.add_le_add_left (Nat.min_le_left _ _) _
          _ = k := Nat.add_sub_cancel' hlen
      rcases List.mem_cons.mp hs with rfl | htail
      · simpa using hactive
      · refine ih _ _ ?_ s htail
        calc ((((running ++ pending.take (k - running.length)).map
              (fun p => (p.1, p.2 - 1))).filter (fun p => p.2 != 0))).length
            ≤ ((running ++ pending.take (k - running.length)).map
              (fun p => (p.1, p.2 - 1))).length := List.length_filter_le _ _
          _ = (running ++ pending.take (k - running.length)).length :=
              List.length_map _ _
          _ ≤ k := hactive

/-! ## Claims -/

/-- C1: the claim states that when the OS-level submission command returns a
non-zero exit status, `Cluster.submit` logs the failure and terminates the
whole process with a non-zero exit code.  The code calls
`subprocess.run(submit_call, shell=True)` without `check=True`, so
`subprocess.CalledProcessError` is never raised and the
`except`/`sys.exit(-1)` branch is dead: evaluated at a submission command
that exits with status 1, `Cluster.submit` returns normally and the workflow
continues. -/
theorem submit_failure_continues_normally :
    clusterSubmit clusterSubmitCallHeader "submit" "./" "parameters.yaml"
      (fun _ => 1) = SubmitOutcome.returnedNormally
    ∧ ((1 : Int) ≠ 0) := by decide

/-- C2: the claim states that the array dispatch never blocks past the
`tasktime` budget and an overrunning task is not counted as completed.  In
the code the `with ProcessPoolExecutor` block exit joins every task with no
timeout before `wait(futures, timeout=tasktime)` is ever reached, so with
`tasktime = 2` and a single task of duration 3 ticks the dispatcher blocks
for 3 ticks, and the overrunning task's eventual exit status 0 is collected
and counted as success. -/
theorem array_wait_exceeds_tasktime :
    (clusterRun 1 1 2 10 (fun _ => 3) (fun _ => 0) clusterRunCallHeader
      "run" "f.p" "k.p" "" false).elapsed = 3
    ∧ ¬((clusterRun 1 1 2 10 (fun _ => 3) (fun _ => 0) clusterRunCallHeader
      "run" "f.p" "k.p" "" false).elapsed ≤ 2)
    ∧ (clusterRun 1 1 2 10 (fun _ => 3) (fun _ => 0) clusterRunCallHeader
      "run" "f.p" "k.p" "" false).results = [(0, 0)]
    ∧ (clusterRun 1 1 2 10 (fun _ => 3) (fun _ => 0) clusterRunCallHeader
      "run" "f.p" "k.p" "" false).outcome = RunOutcome.success := by decide

/-- C3: for every completed array dispatch with distinct task ids, the
failure aggregation at the end of `Cluster.run` yields success iff every
collected result has exit status zero; otherwise the failure report carries
the run-command template, every task id with a non-zero exit status, and no
task id whose exit status is zero. -/
theorem aggregate_success_iff_all_zero (results : List (Nat × Int))
    (cmd : String) (hnd : (results.map Prod.fst).Nodup) :
    (aggregate results cmd = RunOutcome.success ↔ ∀ p ∈ results, p.2 = 0)
    ∧ (∀ ids c, aggregate results cmd = RunOutcome.failureExit ids c →
        c = cmd
        ∧ (∀ id rc, (id, rc) ∈ results → rc ≠ 0 → id ∈ ids)
        ∧ (∀ id, (id, 0) ∈ results → id ∉ ids)) := by
  unfold aggregate
  rcases hfj : failedJobs results with _ | ⟨a, l⟩
  · constructor
    · exact ⟨fun _ => (failedJobs_eq_nil results).mp hfj, fun _ => rfl⟩
    · intro ids c habs
      cases habs
  · constructor
    · constructor
      · intro habs
        cases habs
      · intro hall
        rw [← failedJobs_eq_nil] at hall
        rw [hall] at hfj
        cases hfj
    · intro ids c heq
      cases heq
      refine ⟨rfl, ?_, ?_⟩
      · intro id rc hmem hrc
        rw [← hfj, mem_failedJobs]
        exact ⟨rc, hmem, hrc⟩
      · intro id hmem hin
        rw [← hfj, mem_failedJobs] at hin
        obtain ⟨rc, hrcmem, hrc0⟩ := hin
        have := List.inj_on_of_nodup_map hnd hmem hrcmem rfl
        cases this
        exact hrc0 rfl

/-- C3 witness: the aggregation property instantiated at the concrete result
set `[(0, 0), (1, 2)]` (task 0 succeeded, task 1 failed). -/
theorem aggregate_success_iff_all_zero_witness :
    (aggregate ([(0, 0), (1, 2)] : List (Nat × Int)) "cmd" =
        RunOutcome.success ↔
      ∀ p ∈ ([(0, 0), (1, 2)] : List (Nat × Int)), p.2 = 0)
    ∧ (∀ ids c, aggregate ([(0, 0), (1, 2)] : List (Nat × Int)) "cmd" =
        RunOutcome.failureExit ids c →
        c = "cmd"
        ∧ (∀ id rc, (id, rc) ∈ ([(0, 0), (1, 2)] : List (Nat × Int)) →
            rc ≠ 0 → id ∈ ids)
        ∧ (∀ id, (id, 0) ∈ ([(0, 0), (1, 2)] : List (Nat × Int)) →
            id ∉ ids)) :=
  aggregate_success_iff_all_zero ([(0, 0), (1, 2)] : List (Nat × Int)) "cmd"
    (by decide)

/-- C4 counterexample: the claim states that constructing the BSCC backend
with a partition outside the variant's legal set, or with a malformed GPU
count, fails with a `ConfigError` at configuration-validation time.  In the
code `Bscc.__init__` performs no validation at all: construction succeeds for
a partition name not in `_partitions`, and a malformed (non-integer) `ngpus`
is silently skipped by the `isinstance` guard. -/
theorem bscc_init_accepts_bad_partition :
    (bsccInit (BsccConfig.mk "run1" "output.log" "logs" 10 1 4 "" Option.none
        Option.none Option.none []) "mpiexec" (some "bad_partition")
        Option.none Ngpus.absent).toOption.isSome = true
    ∧ ((bsccPartitions.map Prod.fst).contains "bad_partition") = false
    ∧ (bsccInit (BsccConfig.mk "run1" "output.log" "logs" 10 1 4 ""
        Option.none Option.none Option.none []) "mpiexec" (some "gpu_4090")
        Option.none (Ngpus.other "four")).toOption.isSome = true := by decide

/-- C4 (amended): `Bscc.__init__` never fails — it accepts any partition name
(legal or not) and stores it unvalidated, and a malformed (non-integer) or
absent GPU count is silently ignored, leaving `slurm_args` unchanged; no
`ConfigError` is raised at configuration-validation time. -/
theorem bscc_init_never_fails (base : BsccConfig) (mp : String)
    (p st : Option String) (g : String) :
    bsccInit base mp p st Ngpus.absent = Except.ok { base with mpiexec := mp, partition := p, submit_to := pyOrStr st p, partitions := bsccPartitions }
    ∧ bsccInit base mp p st (Ngpus.other g) = Except.ok { base with mpiexec := mp, partition := p, submit_to := pyOrStr st p, partitions := bsccPartitions }
    ∧ ∀ n : Int, (bsccInit base mp p st (Ngpus.int n)).toOption.isSome = true := by
  refine ⟨rfl, rfl, fun n => ?_⟩
  simp only [bsccInit]
  split <;> rfl

/-- C5 counterexample: the claim states that a `single=true` run returns
Success only if the one task reports a zero exit status.  In the code the
single branch discards `_run_task`'s returned pair and performs no
return-code check: with a task whose shell command exits 1, `Cluster.run`
still falls through and returns normally (Success). -/
theorem run_single_success_despite_failure :
    (clusterRun 5 2 1 10 (fun _ => 1) (fun _ => 1) clusterRunCallHeader
      "run" "f.p" "k.p" "" true).outcome = RunOutcome.success
    ∧ (clusterRun 5 2 1 10 (fun _ => 1) (fun _ => 1) clusterRunCallHeader
      "run" "f.p" "k.p" "" true).results = [(0, 1)]
    ∧ ((1 : Int) ≠ 0) := by decide

/-- C5 (amended): a `single=true` call of `Cluster.run` executes exactly one
task, with TaskId 0, regardless of the configured task count — and it returns
normally (Success) regardless of that task's exit status, because the single
branch discards the task's returned exit code. -/
theorem run_single_exactly_one_task (ntask ntask_max tasktime fuel : Nat)
    (durOf : Nat → Nat) (rcOf : String → Int) (h e f k env : String) :
    (clusterRun ntask ntask_max tasktime fuel durOf rcOf h e f k env
      true).executed = [0]
    ∧ (clusterRun ntask ntask_max tasktime fuel durOf rcOf h e f k env
      true).results = [(0, rcOf (pyFormat (buildRunCall h e f k env) 0))]
    ∧ (clusterRun ntask ntask_max tasktime fuel durOf rcOf h e f k env
      true).outcome = RunOutcome.success := by
  refine ⟨rfl, ?_, rfl⟩
  simp [clusterRun, runTask, subprocessRun, Except.toOption, Option.toList]

/-- C6: for an array dispatch on the local/workstation backend with
concurrency cap `ntask_max`, no snapshot of the bounded worker pool ever
holds more than `ntask_max` simultaneously running task processes, for any
configured task count. -/
theorem cluster_run_concurrency_bound (ntask ntask_max tasktime fuel : Nat)
    (durOf : Nat → Nat) (rcOf : String → Int) (h e f k env : String) :
    ∀ s ∈ (clusterRun ntask ntask_max tasktime fuel durOf rcOf h e f k env
      false).snapshots, s.length ≤ ntask_max := by
  intro s hs
  have heq : (clusterRun ntask ntask_max tasktime fuel durOf rcOf h e f k env
      false).snapshots = poolSim ntask_max fuel
        ((taskIds ntask false).map (fun i => (i, durOf i))) [] := rfl
  rw [heq] at hs
  exact poolSim_running_le ntask_max fuel _ [] (Nat.zero_le _) s hs

/-- C6 witness: with `ntask_max = 1` and two unit-duration tasks (so
`N = 2 > 1 = k`), the snapshot `[0]` really occurs and respects the bound. -/
theorem cluster_run_concurrency_bound_witness :
    (([0] : List Nat) ∈ (clusterRun 2 1 1 5 (fun _ => 1) (fun _ => 0)
      clusterRunCallHeader "run" "f.p" "k.p" "" false).snapshots)
    ∧ ([0] : List Nat).length ≤ 1 :=
  ⟨by decide, cluster_run_concurrency_bound 2 1 1 5 (fun _ => 1) (fun _ => 0)
    clusterRunCallHeader "run" "f.p" "k.p" "" [0] (by decide)⟩

/-- C7: the run command template built by `Cluster.run` is exactly the
concatenation, separated by single spaces, of the backend's run header, the
fixed run entry-point path, `--funcs` with the functions handle, `--kwargs`
with the kwargs handle, and `--environment` with the binding string that
carries the TaskId slot and then the backend's configured environs after a
comma. -/
theorem run_call_matches_spec (h e f k env : String) :
    buildRunCall h e f k env = specRunCommand h e f k env := by
  simp [buildRunCall, specRunCommand, pyJoin, String.append_assoc]

/-- C8: for a fixed backend configuration the submit-header and run-header
operations are pure functions of the configuration and their arguments —
calling either twice with identical inputs yields identical strings — and the
generic/local `Cluster` variant returns the empty string for both. -/
theorem headers_pure_and_generic_empty (c : BsccConfig) (exe arr : String)
    (tt : Nat) :
    bsccSubmitCallHeader c = bsccSubmitCallHeader c
    ∧ bsccRunCall c exe arr tt = bsccRunCall c exe arr tt
    ∧ clusterSubmitCallHeader = ""
    ∧ clusterRunCallHeader = "" :=
  ⟨rfl, rfl, rfl, rfl⟩

/-- C9: every `Cluster.run` dispatch serializes the work unit exactly once —
the trace begins with the two handle writes, neither handle is ever written
again later in the dispatch, and every task launch occurs strictly after both
handles are written. -/
theorem run_serializes_once_before_launch (single : Bool) (ids : List Nat) :
    ∃ rest, runEvents single ids =
        RunEv.writeFuncsHandle :: RunEv.writeKwargsHandle :: rest
      ∧ RunEv.writeFuncsHandle ∉ rest
      ∧ RunEv.writeKwargsHandle ∉ rest
      ∧ ∀ i, RunEv.launch i ∈ runEvents single ids → RunEv.launch i ∈ rest := by
  refine ⟨(if single then [RunEv.launch 0]
    else ids.map RunEv.launch ++ [RunEv.waitArray, RunEv.aggregateResults]),
    rfl, ?_, ?_, ?_⟩
  · cases single <;> simp
  · cases single <;> simp
  · intro i hi
    simp only [runEvents, List.cons_append, List.nil_append,
      List.mem_cons] at hi
    rcases hi with h1 | h2 | h3
    · cases h1
    · cases h2
    · exact h3

/-- C10: provided the per-task log file opens, `Cluster._run_task` always
returns the pair `(task_id, returncode)` of the shell command: since
`subprocess.run` is called without `check=True` it never raises
`CalledProcessError` on a non-zero exit, so the `except`/`sys.exit(-1)`
branch is unreachable and a failing task never aborts the dispatcher from
inside `_run_task`. -/
theorem run_task_returns_pair (rcOf : String → Int) (run_call : String)
    (task_id : Nat) :
    runTask true rcOf run_call task_id =
      Except.ok (task_id, rcOf (pyFormat run_call task_id)) := by
  simp [runTask, subprocessRun]
